import Mathlib

/-!
Verification of the pathclear incident dashboard.

The development shallowly embeds the core of the repository:
  * the incident data model (`src/types/index.ts`),
  * the incident store hook (`src/hooks/useIncidents.ts`): seed list,
    `addIncident`, `updateIncidentStatus`, the periodic refresh tick and the
    synthetic detection generator,
  * the YOLO result-processing service (`src/services/yoloService.ts`):
    `processYOLOResults`, `mapYOLOClassToIncidentType`, `calculateSeverity`,
  * the two analyze-endpoint variants (`server/yolo-server.js` and the
    unnamed Express variant).

JavaScript numbers are modelled as rationals (`ℚ`), `Date` values as
milliseconds since the epoch (`Nat`), and `Math.random()` draws as explicit
rational parameters in `[0, 1)`.
-/

namespace PathClear

/-! ### JavaScript string primitives

The source uses `String.prototype.toLowerCase`, `includes` and `padStart` on
ASCII class names; these model exactly that ASCII behaviour. -/

/-- JS `toLowerCase` on one ASCII character. -/
def charToLower (c : Char) : Char :=
  if 65 ≤ c.toNat ∧ c.toNat ≤ 90 then Char.ofNat (c.toNat + 32) else c

/-- JS `s.toLowerCase()`. -/
def jsToLower (s : String) : String := ⟨s.data.map charToLower⟩

/-- Substring occurrence on character lists. -/
def subListAt : List Char → List Char → Bool
  | pat, [] => pat.isEmpty
  | pat, l@(_ :: t) => pat.isPrefixOf l || subListAt pat t

/-- JS `s.includes(pat)`. -/
def jsIncludes (s pat : String) : Bool := subListAt pat.data s.data

/-- JS `s.padStart(3, '0')`. -/
def padStart3 (s : String) : String :=
  ⟨List.replicate (3 - s.length) '0' ++ s.data⟩

/-! ### Incident data model (`src/types/index.ts`) -/

inductive IncidentType
  | accident | flooding | heavy_rain | traffic_jam | road_closure | emergency
deriving DecidableEq, Repr

inductive Severity
  | low | medium | high | critical
deriving DecidableEq, Repr

inductive IncidentStatus
  | active | resolved | monitoring
deriving DecidableEq, Repr

inductive DetectedBy
  | ai | manual | user_report
deriving DecidableEq, Repr

structure GeoLocation where
  lat : ℚ
  lng : ℚ
  address : String
deriving DecidableEq, Repr

/-- `DetectionBox`; the source field `class` is a Lean keyword, rendered `cls`. -/
structure DetectionBox where
  x : ℚ
  y : ℚ
  width : ℚ
  height : ℚ
  cls : String
  confidence : ℚ
deriving DecidableEq, Repr

structure Incident where
  id : String
  type : IncidentType
  location : GeoLocation
  severity : Severity
  description : String
  timestamp : Nat
  status : IncidentStatus
  detectedBy : DetectedBy
  cctvId : Option String := none
  confidence : Option ℚ := none
  videoUrl : Option String := none
  detectionBoxes : Option (List DetectionBox) := none
deriving DecidableEq, Repr

/-- The payload handed to `addIncident`: an incident record without its
`id` and `timestamp` fields (the TypeScript Omit type). -/
structure NewIncident where
  type : IncidentType
  location : GeoLocation
  severity : Severity
  description : String
  status : IncidentStatus
  detectedBy : DetectedBy
  cctvId : Option String := none
  confidence : Option ℚ := none
  videoUrl : Option String := none
  detectionBoxes : Option (List DetectionBox) := none
deriving DecidableEq, Repr

/-! ### Incident store (`src/hooks/useIncidents.ts`) -/

/-- The record built by `addIncident`: the payload spread plus
`id: Date.now().toString()` and `timestamp: new Date()`. -/
def mkIncident (incident : NewIncident) (now : Nat) : Incident :=
  { id := Nat.repr now
    type := incident.type
    location := incident.location
    severity := incident.severity
    description := incident.description
    timestamp := now
    status := incident.status
    detectedBy := incident.detectedBy
    cctvId := incident.cctvId
    confidence := incident.confidence
    videoUrl := incident.videoUrl
    detectionBoxes := incident.detectionBoxes }

/-- `addIncident`: prepend the freshly stamped record. -/
def addIncident (incident : NewIncident) (now : Nat) (prev : List Incident) :
    List Incident :=
  mkIncident incident now :: prev

/-- `updateIncidentStatus`: map over the list, replacing the `status` of any
record whose `id` matches. -/
def updateIncidentStatus (id : String) (status : IncidentStatus)
    (prev : List Incident) : List Incident :=
  prev.map fun incident =>
    if incident.id = id then { incident with status := status } else incident

/-- The periodic refresh tick (the `setInterval` body in the variant of
`useIncidents` that re-stamps a random incident): copy the list and, when the
random index is in range, overwrite that record's `timestamp` with `new Date()`. -/
def refreshTick (randomIndex : Nat) (now : Nat) (prev : List Incident) :
    List Incident :=
  match prev.get? randomIndex with
  | some incident => prev.set randomIndex { incident with timestamp := now }
  | none => prev

/-- A sequence of `addIncident` calls, each with the payload and the
`Date.now()` value observed at that call. -/
def applyInserts (seed : List Incident) (inserts : List (NewIncident × Nat)) :
    List Incident :=
  inserts.foldl (fun s pt => addIncident pt.1 pt.2 s) seed

/-- The `MOCK_INCIDENTS` seed list (variant with detection boxes), relative to
the `Date.now()` value observed at module initialisation. -/
def MOCK_INCIDENTS (now : Nat) : List Incident :=
  [ { id := "1"
      type := .accident
      location := { lat := 17.4435, lng := 78.3772, address := "HITEC City, Hyderabad" }
      severity := .high
      description := "Multi-vehicle collision detected - blocking two lanes"
      timestamp := now - 15 * 60 * 1000
      status := .active
      detectedBy := .ai
      cctvId := some "cam-001"
      confidence := some 0.94
      detectionBoxes := some [{ x := 120, y := 80, width := 180, height := 120,
                                cls := "car_accident", confidence := 0.94 }] }
  , { id := "2"
      type := .flooding
      location := { lat := 17.4126, lng := 78.4482, address := "Banjara Hills, Hyderabad" }
      severity := .critical
      description := "Street flooding detected - road impassable"
      timestamp := now - 30 * 60 * 1000
      status := .active
      detectedBy := .ai
      cctvId := some "cam-002"
      confidence := some 0.87
      detectionBoxes := some [{ x := 200, y := 150, width := 300, height := 100,
                                cls := "flood", confidence := 0.87 }] }
  , { id := "3"
      type := .traffic_jam
      location := { lat := 17.4239, lng := 78.4738, address := "Jubilee Hills, Hyderabad" }
      severity := .medium
      description := "Heavy traffic congestion detected"
      timestamp := now - 45 * 60 * 1000
      status := .monitoring
      detectedBy := .ai
      cctvId := some "cam-003"
      confidence := some 0.76
      detectionBoxes := some [{ x := 50, y := 100, width := 400, height := 200,
                                cls := "heavy_traffic", confidence := 0.76 }] }
  , { id := "4"
      type := .road_closure
      location := { lat := 17.5040, lng := 78.5030, address := "Secunderabad, Hyderabad" }
      severity := .high
      description := "Road closure due to construction work"
      timestamp := now - 90 * 60 * 1000
      status := .active
      detectedBy := .manual
      cctvId := some "cam-004" } ]

/-! ### YOLO analysis service (`src/services/yoloService.ts`) -/

/-- A YOLO bounding box `[x1, y1, x2, y2]` (the four array entries
`bbox[0] .. bbox[3]` of the source). -/
structure BBox where
  x1 : ℚ
  y1 : ℚ
  x2 : ℚ
  y2 : ℚ
deriving DecidableEq, Repr

structure YOLODetection where
  cls : String
  confidence : ℚ
  bbox : BBox
deriving DecidableEq, Repr

/-- The untyped `yoloResults` payload consumed by `processYOLOResults`; each
field may be missing (JS `undefined`). -/
structure AnalyzeResultsInput where
  videoId : Option String := none
  detections : Option (List YOLODetection) := none
  processedFrames : Option Nat := none
  totalFrames : Option Nat := none
deriving DecidableEq, Repr

inductive AnalysisStatus
  | processing | completed | error
deriving DecidableEq, Repr

structure VideoAnalysis where
  videoId : String
  detections : List YOLODetection
  incidents : List Incident
  processedFrames : Nat
  totalFrames : Nat
  status : AnalysisStatus
deriving DecidableEq, Repr

/-- The `classMap` record literal of `mapYOLOClassToIncidentType`: property
lookup on the lower-cased class name. -/
def classMapLookup : String → Option IncidentType
  | "car_accident" => some .accident
  | "collision" => some .accident
  | "crashed_car" => some .accident
  | "flood" => some .flooding
  | "water_on_road" => some .flooding
  | "heavy_traffic" => some .traffic_jam
  | "traffic_congestion" => some .traffic_jam
  | "blocked_road" => some .road_closure
  | "construction" => some .road_closure
  | "emergency_vehicle" => some .emergency
  | _ => none

/-- `mapYOLOClassToIncidentType`: `classMap[yoloClass.toLowerCase()] || null`. -/
def mapYOLOClassToIncidentType (yoloClass : String) : Option IncidentType :=
  classMapLookup (jsToLower yoloClass)

/-- `calculateSeverity`: substring tests on the raw class name (no lowering). -/
def calculateSeverity (confidence : ℚ) (className : String) : Severity :=
  if jsIncludes className "accident" || jsIncludes className "flood" then
    if confidence > mkRat 4 5 then .critical else .high
  else if jsIncludes className "traffic" || jsIncludes className "congestion" then
    if confidence > mkRat 7 10 then .medium else .low
  else .medium

/-- JS `v || dflt` on an optional string: the empty string is falsy. -/
def jsOrString (v : Option String) (dflt : String) : String :=
  match v with
  | some s => if s = "" then dflt else s
  | none => dflt

/-- JS `v || dflt` on an optional number: `0` is falsy. -/
def jsOrNat (v : Option Nat) (dflt : Nat) : Nat :=
  match v with
  | some n => if n = 0 then dflt else n
  | none => dflt

/-- The incident record pushed by `processYOLOResults` for one detection whose
class mapped to `t`; `index` is the forEach index, `now` the `Date.now()`
value. -/
def yoloIncident (loc : GeoLocation) (now : Nat) (index : Nat)
    (detection : YOLODetection) (t : IncidentType) : Incident :=
  { id := "yolo-" ++ Nat.repr now ++ "-" ++ Nat.repr index
    type := t
    location := loc
    severity := calculateSeverity detection.confidence detection.cls
    description := "AI detected " ++ detection.cls ++ " with " ++
      (round (detection.confidence * 100)).repr ++ "% confidence"
    timestamp := now
    status := .active
    detectedBy := .ai
    cctvId := none
    confidence := some detection.confidence
    videoUrl := none
    detectionBoxes := some [{ x := detection.bbox.x1
                              y := detection.bbox.y1
                              width := detection.bbox.x2 - detection.bbox.x1
                              height := detection.bbox.y2 - detection.bbox.y1
                              cls := detection.cls
                              confidence := detection.confidence }] }

/-- `processYOLOResults`. -/
def processYOLOResults (yoloResults : AnalyzeResultsInput) (loc : GeoLocation)
    (now : Nat) : VideoAnalysis :=
  let detections := yoloResults.detections.getD []
  let incidents := detections.enum.filterMap fun p =>
    (mapYOLOClassToIncidentType p.2.cls).map (yoloIncident loc now p.1 p.2)
  { videoId := jsOrString yoloResults.videoId (Nat.repr now)
    detections := detections
    incidents := incidents
    processedFrames := jsOrNat yoloResults.processedFrames 100
    totalFrames := jsOrNat yoloResults.totalFrames 100
    status := .completed }

/-- The detection of the spec example: class car_accident, confidence 0.9,
bbox `[0, 0, 10, 10]`. -/
def detCarAccident : YOLODetection :=
  { cls := "car_accident", confidence := mkRat 9 10, bbox := ⟨0, 0, 10, 10⟩ }

/-- A detection with a class absent from the mapping table. -/
def detBicycle : YOLODetection :=
  { cls := "bicycle", confidence := mkRat 9 10, bbox := ⟨0, 0, 10, 10⟩ }

/-- The upper-case spelling FLOOD at confidence 0.9. -/
def detFLOOD : YOLODetection :=
  { cls := "FLOOD", confidence := mkRat 9 10, bbox := ⟨0, 0, 10, 10⟩ }

/-- A fixed location used to instantiate concrete analyses. -/
def demoLoc : GeoLocation :=
  { lat := 17.4, lng := 78.4, address := "Demo Junction, Hyderabad" }

/-- A minimal insert payload for concrete store runs. -/
def someNewIncident : NewIncident :=
  { type := .accident
    location := demoLoc
    severity := .low
    description := "probe"
    status := .active
    detectedBy := .ai }

/-- A minimal concrete incident used in frame-condition examples. -/
def demoIncident (id : String) : Incident :=
  { id := id
    type := .accident
    location := demoLoc
    severity := .low
    description := "probe"
    timestamp := 0
    status := .active
    detectedBy := .ai }

/-! ### Decimal representation

`addIncident` derives ids from `Date.now().toString()`, i.e. `Nat.repr`.
The following development relates core `Nat.toDigitsCore` to a structural
digit-list function, establishing that `Nat.repr` is injective. -/

/-- The base-10 digit characters of `n`, most significant first. -/
def natDigits (n : Nat) : List Char :=
  if _h : n < 10 then [Nat.digitChar n]
  else natDigits (n / 10) ++ [Nat.digitChar (n % 10)]
termination_by n
decreasing_by exact Nat.div_lt_self (by omega) (by omega)

/-- Numeric value of one digit character. -/
def digitVal (c : Char) : Nat := c.toNat - 48

/-- Numeric value of a digit string, most significant first. -/
def digitsVal (l : List Char) : Nat := l.foldl (fun a c => 10 * a + digitVal c) 0

/-! ### Newest-first timestamp order

Reading the store list from last element to first, timestamps never decrease;
equivalently the list is non-increasing front to back. -/

/-- Timestamps are non-increasing front to back (newest first). -/
def newestFirst (s : List Incident) : Prop :=
  s.Chain' fun a b => b.timestamp ≤ a.timestamp

/-- A store reached by two inserts and then a refresh tick on index 1: the
tick re-stamps the older record with the current time. -/
def c6BadStore : List Incident :=
  refreshTick 1 20 (applyInserts [] [(someNewIncident, 5), (someNewIncident, 10)])

/-! ### Synthetic detection generator (`generateRandomDetection`) -/

/-- Printed form of the incident-type union value (the `type` strings of the
source). -/
def IncidentType.toStr : IncidentType → String
  | .accident => "accident"
  | .flooding => "flooding"
  | .heavy_rain => "heavy_rain"
  | .traffic_jam => "traffic_jam"
  | .road_closure => "road_closure"
  | .emergency => "emergency"

/-- JS `arr[Math.floor(r * n)]` index. -/
def jsIndex (r : ℚ) (n : Nat) : Nat := (⌊r * (n : ℚ)⌋).toNat

/-- The ten `Math.random()` draws consumed by one `generateRandomDetection`
call, in source order. -/
structure RandomDraws where
  rType : ℚ
  rLoc : ℚ
  rDesc : ℚ
  rCam : ℚ
  rConf : ℚ
  rX : ℚ
  rY : ℚ
  rW : ℚ
  rH : ℚ
  rBoxConf : ℚ
deriving DecidableEq, Repr

/-- Every draw lies in `[0, 1)`, as `Math.random()` guarantees. -/
def DrawsOK (d : RandomDraws) : Prop :=
  (0 ≤ d.rType ∧ d.rType < 1) ∧ (0 ≤ d.rLoc ∧ d.rLoc < 1) ∧
  (0 ≤ d.rDesc ∧ d.rDesc < 1) ∧ (0 ≤ d.rCam ∧ d.rCam < 1) ∧
  (0 ≤ d.rConf ∧ d.rConf < 1) ∧ (0 ≤ d.rX ∧ d.rX < 1) ∧
  (0 ≤ d.rY ∧ d.rY < 1) ∧ (0 ≤ d.rW ∧ d.rW < 1) ∧
  (0 ≤ d.rH ∧ d.rH < 1) ∧ (0 ≤ d.rBoxConf ∧ d.rBoxConf < 1)

/-- One entry of the `detectionTypes` catalog. -/
structure DetectionTemplate where
  type : IncidentType
  descriptions : List String
  severity : Severity
deriving DecidableEq, Repr

instance : Inhabited DetectionTemplate :=
  ⟨{ type := .accident, descriptions := [], severity := .critical }⟩

instance : Inhabited GeoLocation := ⟨{ lat := 0, lng := 0, address := "" }⟩

/-- The `detectionTypes` catalog of `generateRandomDetection`. -/
def detectionTypes : List DetectionTemplate :=
  [ { type := .accident
      descriptions := ["Multi-vehicle collision detected by AI",
                       "Car crash blocking traffic lanes",
                       "Vehicle accident with debris on road",
                       "Rear-end collision detected"]
      severity := .critical }
  , { type := .flooding
      descriptions := ["Street flooding detected by AI",
                       "Water accumulation on roadway",
                       "Heavy water logging detected",
                       "Road inundation from rainfall"]
      severity := .high }
  , { type := .traffic_jam
      descriptions := ["Heavy traffic congestion detected",
                       "Slow-moving traffic identified",
                       "Traffic backup detected by AI",
                       "Vehicle queue formation detected"]
      severity := .medium }
  , { type := .heavy_rain
      descriptions := ["Heavy rainfall detected by AI",
                       "Intense precipitation observed",
                       "Weather-related visibility issues",
                       "Rain affecting road conditions"]
      severity := .medium } ]

/-- The `hyderabadLocations` catalog of `generateRandomDetection`. -/
def hyderabadLocations : List GeoLocation :=
  [ { lat := 17.4435, lng := 78.3772, address := "HITEC City, Hyderabad" }
  , { lat := 17.4126, lng := 78.4482, address := "Banjara Hills, Hyderabad" }
  , { lat := 17.4239, lng := 78.4738, address := "Jubilee Hills, Hyderabad" }
  , { lat := 17.5040, lng := 78.5030, address := "Secunderabad, Hyderabad" }
  , { lat := 17.4399, lng := 78.3489, address := "Gachibowli, Hyderabad" }
  , { lat := 17.4840, lng := 78.4070, address := "Kukatpally, Hyderabad" }
  , { lat := 17.4483, lng := 78.3915, address := "Madhapur, Hyderabad" }
  , { lat := 17.4616, lng := 78.3670, address := "Kondapur, Hyderabad" } ]

/-- `generateRandomDetection`, with the random draws passed explicitly. -/
def generateRandomDetection (d : RandomDraws) : NewIncident :=
  let randomDetection := detectionTypes.getD (jsIndex d.rType 4) default
  let randomLocation := hyderabadLocations.getD (jsIndex d.rLoc 8) default
  let randomDescription := randomDetection.descriptions.getD (jsIndex d.rDesc 4) ""
  { type := randomDetection.type
    location := randomLocation
    severity := randomDetection.severity
    description := randomDescription
    status := .active
    detectedBy := .ai
    cctvId := some ("cam-" ++ padStart3 (Nat.repr (jsIndex d.rCam 100)))
    confidence := some (0.75 + d.rConf * 0.2)
    videoUrl := none
    detectionBoxes := some [{ x := d.rX * 200 + 50
                              y := d.rY * 150 + 50
                              width := d.rW * 100 + 100
                              height := d.rH * 80 + 80
                              cls := randomDetection.type.toStr
                              confidence := 0.75 + d.rBoxConf * 0.2 }] }

/-- Confidence bounds on an inserted payload. -/
def payloadConfWithin01 (p : NewIncident) : Prop :=
  (∀ c ∈ p.confidence, 0 ≤ c ∧ c ≤ 1) ∧
  (∀ bs ∈ p.detectionBoxes, ∀ b ∈ bs, 0 ≤ b.confidence ∧ b.confidence ≤ 1)

/-- Confidence bounds on a stored incident. -/
def confWithin01 (inc : Incident) : Prop :=
  (∀ c ∈ inc.confidence, 0 ≤ c ∧ c ≤ 1) ∧
  (∀ bs ∈ inc.detectionBoxes, ∀ b ∈ bs, 0 ≤ b.confidence ∧ b.confidence ≤ 1)

/-- All ten draws set to one half. -/
def halfDraws : RandomDraws :=
  { rType := mkRat 1 2, rLoc := mkRat 1 2, rDesc := mkRat 1 2, rCam := mkRat 1 2
    rConf := mkRat 1 2, rX := mkRat 1 2, rY := mkRat 1 2, rW := mkRat 1 2
    rH := mkRat 1 2, rBoxConf := mkRat 1 2 }

/-! ### Analyze endpoints

Two Express variants live in the repository.  In `server/yolo-server.js` the
handler runs `JSON.parse(req.body.location)` inside its outer try/catch: a
missing or malformed location field throws and the catch answers HTTP 500.
The other variant guards the parse with its own try/catch, leaves `location`
null on failure, and `generateMockAnalysis` substitutes a random catalog
location per incident. -/

/-- The state of the multipart `location` field as the handler sees it. -/
inductive LocationField (α : Type)
  | absent
  | malformed
  | valid (loc : α)
deriving DecidableEq, Repr

/-- Response body of `server/yolo-server.js` POST `/api/analyze` (the
presentation-only fields `analysisTime`, `modelVersion`, `timestamp`,
`processingFps` and `detectionClasses` carry no data dependent on the
request and are omitted). -/
structure YoloServerBody where
  videoId : String
  filename : String
  location : GeoLocation
  detections : List YOLODetection
  processedFrames : Nat
  totalFrames : Nat
  status : String
deriving DecidableEq, Repr

inductive YoloServerResponse
  | ok (body : YoloServerBody)
  | badRequest (error : String)
  | serverError (error : String)
deriving DecidableEq, Repr

/-- POST `/api/analyze` of `server/yolo-server.js`: reject when no file was
uploaded; `JSON.parse` the location (throwing to the outer catch when the
field is missing or malformed, which answers 500); otherwise answer the mock
analysis with status completed. -/
def yoloServerAnalyze (hasFile : Bool) (filename : String)
    (locField : LocationField GeoLocation) (mockDetections : List YOLODetection)
    (now : Nat) : YoloServerResponse :=
  if !hasFile then .badRequest "No video file provided"
  else
    match locField with
    | .valid loc =>
        .ok { videoId := Nat.repr now
              filename := filename
              location := loc
              detections := mockDetections
              processedFrames := 100
              totalFrames := 100
              status := "completed" }
    | _ => .serverError "Failed to analyze video"

/-- A location of the unnamed server variant: the fallback catalog entries
carry `lat`, `lng` and an `area` tag. -/
structure AreaLoc where
  lat : ℚ
  lng : ℚ
  area : String
deriving DecidableEq, Repr

instance : Inhabited AreaLoc := ⟨{ lat := 0, lng := 0, area := "" }⟩

/-- One entry of the `incidentTypes` catalog of the unnamed server variant. -/
structure ServerIncidentKind where
  type : String
  severity : String
  description : String
deriving DecidableEq, Repr

instance : Inhabited ServerIncidentKind :=
  ⟨{ type := "", severity := "", description := "" }⟩

def incidentTypesServer : List ServerIncidentKind :=
  [ { type := "accident", severity := "high", description := "Vehicle collision detected" }
  , { type := "traffic_jam", severity := "medium", description := "Heavy traffic congestion" }
  , { type := "flooding", severity := "high", description := "Water on roadway detected" }
  , { type := "road_closure", severity := "medium", description := "Road obstruction detected" }
  , { type := "emergency", severity := "high", description := "Emergency vehicle detected" } ]

def hyderabadLocationsServer : List AreaLoc :=
  [ { lat := 17.4485, lng := 78.3908, area := "HITEC City" }
  , { lat := 17.4126, lng := 78.4482, area := "Banjara Hills" }
  , { lat := 17.4239, lng := 78.4738, area := "Jubilee Hills" }
  , { lat := 17.4399, lng := 78.4983, area := "Secunderabad" }
  , { lat := 17.4435, lng := 78.3479, area := "Gachibowli" }
  , { lat := 17.4847, lng := 78.4056, area := "Kukatpally" }
  , { lat := 17.4483, lng := 78.3915, area := "Madhapur" }
  , { lat := 17.4569, lng := 78.3677, area := "Kondapur" } ]

/-- JS `toFixed(2)`: the source renders the rounded value as a string; we keep
the rounded rational. -/
def toFixed2 (q : ℚ) : ℚ := (round (q * 100) : ℤ) / 100

/-- The random draws consumed for one generated server incident. -/
structure MockDraw where
  rKind : ℚ
  rLoc : ℚ
  rConf : ℚ
  rLatOff : ℚ
  rLngOff : ℚ
  rBX : ℚ
  rBY : ℚ
  rBW : ℚ
  rBH : ℚ
deriving DecidableEq, Repr

/-- One incident fabricated by `generateMockAnalysis`; `bounding_box` fields
are flattened. -/
structure ServerIncident where
  id : String
  type : String
  severity : String
  description : String
  confidence : ℚ
  timestamp : Nat
  location : AreaLoc
  boxX : Nat
  boxY : Nat
  boxW : Nat
  boxH : Nat
deriving DecidableEq, Repr

/-- One incident of `generateMockAnalysis`: the catalog kind, the parsed
location if present, otherwise a random fallback catalog entry, plus a small
random lat/lng offset. -/
def mkServerIncident (now : Nat) (i : Nat) (location : Option AreaLoc)
    (d : MockDraw) : ServerIncident :=
  let kind := incidentTypesServer.getD (jsIndex d.rKind 5) default
  let locationData := location.getD (hyderabadLocationsServer.getD (jsIndex d.rLoc 8) default)
  { id := "incident_" ++ Nat.repr now ++ "_" ++ Nat.repr i
    type := kind.type
    severity := kind.severity
    description := kind.description
    confidence := toFixed2 (d.rConf * 0.3 + 0.7)
    timestamp := now
    location := { lat := locationData.lat + (d.rLatOff - 0.5) * 0.01
                  lng := locationData.lng + (d.rLngOff - 0.5) * 0.01
                  area := locationData.area }
    boxX := jsIndex d.rBX 400
    boxY := jsIndex d.rBY 300
    boxW := jsIndex d.rBW 200 + 100
    boxH := jsIndex d.rBH 150 + 75 }

/-- The draws consumed by one `generateMockAnalysis` call. -/
structure GenDraws where
  rCount : ℚ
  perIncident : Nat → MockDraw
  rProcTime : ℚ
  rVidDur : ℚ
  rFrames : ℚ

/-- The analysis body of the unnamed server variant (`metadata` flattened;
the source renders `processing_time` and `video_duration` as strings). -/
structure MockAnalysis where
  status : String
  video_file : String
  analysis_complete : Bool
  processing_time : ℚ
  incidents_detected : Nat
  incidents : List ServerIncident
  video_duration : ℚ
  fps : Nat
  resolution : String
  analyzed_frames : Nat

/-- `generateMockAnalysis(filename, location)`. -/
def generateMockAnalysis (filename : String) (location : Option AreaLoc)
    (now : Nat) (g : GenDraws) : MockAnalysis :=
  let numIncidents := jsIndex g.rCount 3 + 1
  let incidents := (List.range numIncidents).map fun i =>
    mkServerIncident now i location (g.perIncident i)
  { status := "success"
    video_file := filename
    analysis_complete := true
    processing_time := g.rProcTime * 5 + 2
    incidents_detected := incidents.length
    incidents := incidents
    video_duration := g.rVidDur * 120 + 30
    fps := 30
    resolution := "1920x1080"
    analyzed_frames := jsIndex g.rFrames 1000 + 500 }

inductive WorkingServerResponse
  | ok (body : MockAnalysis)
  | badRequest (message : String)
  | serverError (message : String)

/-- POST `/api/analyze` of the unnamed server variant: reject when no file was
uploaded; parse the location inside its own try/catch, leaving it null when
the field is missing or malformed; always answer the generated analysis. -/
def part007Analyze (hasFile : Bool) (filename : String)
    (locField : LocationField AreaLoc) (now : Nat) (g : GenDraws) :
    WorkingServerResponse :=
  if !hasFile then .badRequest "No video file uploaded"
  else
    let location : Option AreaLoc :=
      match locField with
      | .valid loc => some loc
      | _ => none
    .ok (generateMockAnalysis filename location now g)

/-- Whether a `yolo-server.js` response is a success (`res.json` of a body). -/
def YoloServerResponse.isOk : YoloServerResponse → Bool
  | .ok _ => true
  | _ => false

/-- Mock draws valued one half, with one fallback-catalog draw per incident. -/
def demoGenDraws : GenDraws :=
  { rCount := mkRat 1 2
    perIncident := fun _ =>
      { rKind := mkRat 1 2, rLoc := mkRat 1 2, rConf := mkRat 1 2
        rLatOff := mkRat 1 2, rLngOff := mkRat 1 2, rBX := mkRat 1 2
        rBY := mkRat 1 2, rBW := mkRat 1 2, rBH := mkRat 1 2 }
    rProcTime := mkRat 1 2
    rVidDur := mkRat 1 2
    rFrames := mkRat 1 2 }

theorem applyInserts_nil (seed : List Incident) : applyInserts seed [] = seed := rfl

theorem applyInserts_cons (seed : List Incident) (x : NewIncident × Nat)
    (rest : List (NewIncident × Nat)) :
    applyInserts seed (x :: rest) = applyInserts (addIncident x.1 x.2 seed) rest := rfl

theorem applyInserts_append (seed : List Incident)
    (l₁ l₂ : List (NewIncident × Nat)) :
    applyInserts seed (l₁ ++ l₂) = applyInserts (applyInserts seed l₁) l₂ :=
  List.foldl_append ..

theorem applyInserts_length (seed : List Incident)
    (inserts : List (NewIncident × Nat)) :
    (applyInserts seed inserts).length = seed.length + inserts.length := by
  induction inserts generalizing seed with
  | nil => simp [applyInserts]
  | cons x rest ih =>
      rw [applyInserts_cons, ih]
      simp [addIncident]
      omega

/-- C1: for every seed list and every sequence of `addIncident` calls, the
resulting list length is the seed length plus the number of inserts, and the
record of the most recent insert is the first element of the list. -/
theorem c1_insert_length_and_most_recent_first :
    ∀ (seed : List Incident) (inserts : List (NewIncident × Nat)),
      (applyInserts seed inserts).length = seed.length + inserts.length ∧
      ∀ (p : NewIncident) (t : Nat),
        (applyInserts seed (inserts ++ [(p, t)])).head? = some (mkIncident p t) := by
  intro seed inserts
  refine ⟨applyInserts_length seed inserts, ?_⟩
  intro p t
  rw [applyInserts_append]
  rfl

theorem updateIncidentStatus_append (id : String) (st : IncidentStatus)
    (l₁ l₂ : List Incident) :
    updateIncidentStatus id st (l₁ ++ l₂) =
      updateIncidentStatus id st l₁ ++ updateIncidentStatus id st l₂ :=
  List.map_append ..

theorem updateIncidentStatus_cons (id : String) (st : IncidentStatus)
    (a : Incident) (l : List Incident) :
    updateIncidentStatus id st (a :: l) =
      (if a.id = id then { a with status := st } else a) ::
        updateIncidentStatus id st l := rfl

theorem updateStatus_of_forall_ne (id : String) (st : IncidentStatus) :
    ∀ (l : List Incident), (∀ x ∈ l, x.id ≠ id) →
      updateIncidentStatus id st l = l := by
  intro l
  induction l with
  | nil => intro _; rfl
  | cons a t ih =>
      intro h
      have h2 := ih (fun x hx => h x (List.mem_cons_of_mem a hx))
      have h1 : (if a.id = id then { a with status := st } else a) = a :=
        if_neg (h a (List.mem_cons_self a t))
      calc updateIncidentStatus id st (a :: t)
          = (if a.id = id then { a with status := st } else a) ::
              updateIncidentStatus id st t := rfl
        _ = a :: t := by rw [h1, h2]

/-- C2: `updateIncidentStatus` with an id occurring at exactly one position
replaces only the `status` of that record, keeping every other field of it and
every other record (and the list order) unchanged; with an id not present in
the store it is the identity. -/
theorem c2_updateStatus_frame :
    ∀ (s : List Incident) (id : String) (st : IncidentStatus),
      ((∀ x ∈ s, x.id ≠ id) → updateIncidentStatus id st s = s) ∧
      ∀ (pre : List Incident) (inc : Incident) (post : List Incident),
        s = pre ++ inc :: post → inc.id = id →
        (∀ x ∈ pre, x.id ≠ id) → (∀ x ∈ post, x.id ≠ id) →
        updateIncidentStatus id st s = pre ++ { inc with status := st } :: post := by
  intro s id st
  refine ⟨updateStatus_of_forall_ne id st s, ?_⟩
  intro pre inc post hs hid hpre hpost
  subst hs
  rw [updateIncidentStatus_append, updateIncidentStatus_cons,
      updateStatus_of_forall_ne id st pre hpre,
      updateStatus_of_forall_ne id st post hpost, if_pos hid]

/-- C2 witness: on a concrete three-record store, updating the middle id
changes exactly that record and leaves the store unchanged for a missing id. -/
theorem c2_updateStatus_frame_witness :
    updateIncidentStatus "2" .resolved
        [demoIncident "1", demoIncident "2", demoIncident "3"] =
      [demoIncident "1", { demoIncident "2" with status := .resolved },
        demoIncident "3"] :=
  (c2_updateStatus_frame [demoIncident "1", demoIncident "2", demoIncident "3"]
      "2" .resolved).2 [demoIncident "1"] (demoIncident "2") [demoIncident "3"]
    rfl rfl (by decide) (by decide)

theorem yoloIncidents_length (dets : List YOLODetection) (loc : GeoLocation)
    (now n : Nat) :
    ((dets.enumFrom n).filterMap fun p =>
        (mapYOLOClassToIncidentType p.2.cls).map (yoloIncident loc now p.1 p.2)).length
      = dets.countP fun d => (mapYOLOClassToIncidentType d.cls).isSome := by
  induction dets generalizing n with
  | nil => rfl
  | cons d t ih =>
      show (List.filterMap _ ((n, d) :: List.enumFrom (n + 1) t)).length = _
      rw [List.filterMap_cons, List.countP_cons]
      cases hm : mapYOLOClassToIncidentType d.cls with
      | none => simp [hm, ih]
      | some ty => simp [hm, ih]

/-- C9: `processYOLOResults` always reports status completed, echoes the input
detections array (empty when the field is absent), and produces at most one
incident per input detection. -/
theorem c9_process_shape :
    ∀ (r : AnalyzeResultsInput) (loc : GeoLocation) (now : Nat),
      (processYOLOResults r loc now).status = .completed ∧
      (processYOLOResults r loc now).detections = r.detections.getD [] ∧
      (processYOLOResults r loc now).incidents.length ≤
        (r.detections.getD []).length := by
  intro r loc now
  refine ⟨rfl, rfl, ?_⟩
  show (((r.detections.getD []).enumFrom 0).filterMap _).length ≤ _
  rw [yoloIncidents_length]
  exact List.countP_le_length _

/-- C10: the class-to-type lookup lowercases the class name but the severity
derivation does not: the detection class FLOOD at confidence 0.9 still yields a
flooding incident, yet with default severity medium, while the lowercase
spelling flood yields critical. -/
theorem c10_case_inconsistency :
    mapYOLOClassToIncidentType "FLOOD" = some .flooding ∧
    calculateSeverity (mkRat 9 10) "FLOOD" = .medium ∧
    calculateSeverity (mkRat 9 10) "flood" = .critical ∧
    (processYOLOResults { detections := some [detFLOOD] } demoLoc 123).incidents.map
        (fun i => (i.type, i.severity)) = [(.flooding, .medium)] := by
  refine ⟨by decide, by decide, by decide, by decide⟩

theorem toDigitsCore_eq_natDigits (fuel : Nat) :
    ∀ (n : Nat) (ds : List Char), n < 10 ^ (fuel + 1) →
      Nat.toDigitsCore 10 (fuel + 1) n ds = natDigits n ++ ds := by
  induction fuel with
  | zero =>
      intro n ds h
      rw [pow_one] at h
      have hstep : Nat.toDigitsCore 10 (0 + 1) n ds =
          if n / 10 = 0 then Nat.digitChar (n % 10) :: ds
          else Nat.toDigitsCore 10 0 (n / 10) (Nat.digitChar (n % 10) :: ds) := rfl
      rw [hstep, if_pos (by omega), natDigits, dif_pos h, Nat.mod_eq_of_lt h]
      rfl
  | succ f ih =>
      intro n ds h
      have hstep : Nat.toDigitsCore 10 (f + 1 + 1) n ds =
          if n / 10 = 0 then Nat.digitChar (n % 10) :: ds
          else Nat.toDigitsCore 10 (f + 1) (n / 10) (Nat.digitChar (n % 10) :: ds) := rfl
      rw [hstep]
      by_cases h10 : n < 10
      · rw [if_pos (by omega), natDigits, dif_pos h10, Nat.mod_eq_of_lt h10]
        rfl
      · have hdlt : n / 10 < 10 ^ (f + 1) := by
          have hmul : n < 10 * 10 ^ (f + 1) := by
            rw [pow_succ] at h
            omega
          exact Nat.div_lt_of_lt_mul hmul
        rw [if_neg (by omega), ih (n / 10) (Nat.digitChar (n % 10) :: ds) hdlt]
        conv_rhs => rw [natDigits]
        rw [dif_neg h10]
        simp [List.append_assoc]

theorem toDigits_eq_natDigits (n : Nat) : Nat.toDigits 10 n = natDigits n := by
  have h : n < 10 ^ (n + 1) := by
    calc n < 10 ^ n := Nat.lt_pow_self (by norm_num) n
      _ ≤ 10 ^ (n + 1) := Nat.pow_le_pow_right (by norm_num) (by omega)
  have := toDigitsCore_eq_natDigits n n [] h
  simpa [Nat.toDigits] using this

theorem digitVal_digitChar (d : Nat) (h : d < 10) :
    digitVal (Nat.digitChar d) = d := by
  interval_cases d <;> rfl

theorem digitsVal_append_singleton (l : List Char) (c : Char) :
    digitsVal (l ++ [c]) = 10 * digitsVal l + digitVal c := by
  simp [digitsVal, List.foldl_append]

theorem digitsVal_natDigits (n : Nat) : digitsVal (natDigits n) = n := by
  induction n using Nat.strong_induction_on with
  | _ n ih =>
      by_cases h : n < 10
      · rw [natDigits, dif_pos h]
        simp [digitsVal, digitVal_digitChar n h]
      · rw [natDigits, dif_neg h, digitsVal_append_singleton,
            ih (n / 10) (Nat.div_lt_self (by omega) (by omega)),
            digitVal_digitChar (n % 10) (Nat.mod_lt n (by omega))]
        omega

theorem natDigits_injective : Function.Injective natDigits := by
  intro m n h
  have h2 := congrArg digitsVal h
  rwa [digitsVal_natDigits, digitsVal_natDigits] at h2

theorem natRepr_injective : Function.Injective Nat.repr := by
  intro m n h
  have h2 : Nat.toDigits 10 m = Nat.toDigits 10 n := congrArg String.data h
  apply natDigits_injective
  rw [← toDigits_eq_natDigits, ← toDigits_eq_natDigits]
  exact h2

theorem applyInserts_ids (seed : List Incident)
    (inserts : List (NewIncident × Nat)) :
    (applyInserts seed inserts).map Incident.id =
      (inserts.map (fun pt => Nat.repr pt.2)).reverse ++ seed.map Incident.id := by
  induction inserts generalizing seed with
  | nil => simp [applyInserts]
  | cons x rest ih =>
      rw [applyInserts_cons, ih]
      simp [addIncident, mkIncident, List.append_assoc]

/-- C5 counterexample: two `addIncident` calls in the same millisecond
(`Date.now()` returning 1000 twice) yield two records with the same id, so ids
are not pairwise distinct across the store lifetime. -/
theorem c5_counterexample :
    ¬ ((applyInserts (MOCK_INCIDENTS 10000000)
          [(someNewIncident, 1000), (someNewIncident, 1000)]).map Incident.id).Nodup := by
  decide

/-- C5 amended: starting from a seed with pairwise-distinct ids, the ids are
pairwise distinct after any insert sequence provided the `Date.now()` values of
the inserts are pairwise distinct and none of their decimal strings equals a
seed id. -/
theorem c5_ids_nodup (seed : List Incident) (inserts : List (NewIncident × Nat))
    (hseed : (seed.map Incident.id).Nodup)
    (hnows : (inserts.map Prod.snd).Nodup)
    (hdisj : ∀ pt ∈ inserts, Nat.repr pt.2 ∉ seed.map Incident.id) :
    ((applyInserts seed inserts).map Incident.id).Nodup := by
  rw [applyInserts_ids]
  apply List.Nodup.append
  · rw [List.nodup_reverse]
    have hmm : inserts.map (fun pt => Nat.repr pt.2) =
        (inserts.map Prod.snd).map Nat.repr := by
      simp [List.map_map, Function.comp]
    rw [hmm]
    exact hnows.map natRepr_injective
  · exact hseed
  · rw [List.disjoint_left]
    intro a ha hb
    obtain ⟨pt, hpt, rfl⟩ := List.mem_map.mp (List.mem_reverse.mp ha)
    exact hdisj pt hpt hb

/-- C5 witness: the seed store plus two inserts at distinct milliseconds has
pairwise-distinct ids. -/
theorem c5_ids_nodup_witness :
    ((applyInserts (MOCK_INCIDENTS 10000000)
          [(someNewIncident, 1000), (someNewIncident, 2000)]).map Incident.id).Nodup :=
  c5_ids_nodup _ _ (by decide) (by decide) (by decide)

/-- C3: the class dictionary maps the listed detection classes to the listed
incident types; severity is derived by the ordered substring rules
(accident/flood; then traffic/congestion; else medium); and the example
detection car_accident at confidence 0.9 yields exactly one incident of type
accident, severity critical, detectedBy ai. -/
theorem c3_mapping_and_severity :
    (mapYOLOClassToIncidentType "car_accident" = some .accident ∧
      mapYOLOClassToIncidentType "flood" = some .flooding ∧
      mapYOLOClassToIncidentType "heavy_traffic" = some .traffic_jam ∧
      mapYOLOClassToIncidentType "blocked_road" = some .road_closure ∧
      mapYOLOClassToIncidentType "construction" = some .road_closure ∧
      mapYOLOClassToIncidentType "emergency_vehicle" = some .emergency) ∧
    (∀ (conf : ℚ) (c : String),
      ((jsIncludes c "accident" || jsIncludes c "flood") = true →
        calculateSeverity conf c = if conf > mkRat 4 5 then .critical else .high) ∧
      ((jsIncludes c "accident" || jsIncludes c "flood") = false →
        (jsIncludes c "traffic" || jsIncludes c "congestion") = true →
        calculateSeverity conf c = if conf > mkRat 7 10 then .medium else .low) ∧
      ((jsIncludes c "accident" || jsIncludes c "flood") = false →
        (jsIncludes c "traffic" || jsIncludes c "congestion") = false →
        calculateSeverity conf c = .medium)) ∧
    (processYOLOResults { detections := some [detCarAccident] } demoLoc 123).incidents.map
        (fun i => (i.type, i.severity, i.detectedBy)) = [(.accident, .critical, .ai)] := by
  refine ⟨by decide, ?_, by decide⟩
  intro conf c
  refine ⟨?_, ?_, ?_⟩
  · intro h
    simp [calculateSeverity, h]
  · intro h1 h2
    simp [calculateSeverity, h1, h2]
  · intro h1 h2
    simp [calculateSeverity, h1, h2]

/-- C3 witness: the severity rules instantiated at concrete classes and
confidences. -/
theorem c3_mapping_and_severity_witness :
    calculateSeverity (mkRat 9 10) "car_accident" = .critical ∧
    calculateSeverity (mkRat 6 10) "heavy_traffic" = .low := by
  constructor
  · have h := ((c3_mapping_and_severity.2.1 (mkRat 9 10) "car_accident").1) (by decide)
    rw [h, if_pos (by decide)]
  · have h := ((c3_mapping_and_severity.2.1 (mkRat 6 10) "heavy_traffic").2.1)
      (by decide) (by decide)
    rw [h, if_neg (by decide)]

/-- C4: a detection whose class is not in the mapping table (such as bicycle)
produces no incident and no error: the incident count equals the number of
mapped detections, a lone bicycle detection yields an empty incident list with
status completed, and detections after a skipped one are still processed. -/
theorem c4_unmapped_classes_dropped :
    mapYOLOClassToIncidentType "bicycle" = none ∧
    (∀ (r : AnalyzeResultsInput) (loc : GeoLocation) (now : Nat),
      (processYOLOResults r loc now).incidents.length =
        (r.detections.getD []).countP
          (fun d => (mapYOLOClassToIncidentType d.cls).isSome)) ∧
    (processYOLOResults { detections := some [detBicycle] } demoLoc 123).incidents = [] ∧
    (processYOLOResults { detections := some [detBicycle] } demoLoc 123).status = .completed ∧
    (processYOLOResults { detections := some [detBicycle, detCarAccident] }
        demoLoc 123).incidents.map
      (fun i => (i.type, i.severity, i.detectedBy)) = [(.accident, .critical, .ai)] := by
  refine ⟨by decide, ?_, by decide, rfl, by decide⟩
  intro r loc now
  show (((r.detections.getD []).enumFrom 0).filterMap _).length = _
  exact yoloIncidents_length ..

/-- C6 counterexample: starting from an empty store, inserting at times 5 and
10 and then running the refresh tick on index 1 at time 20 re-stamps the older
record, so reading the list from last to first the timestamps decrease. -/
theorem c6_counterexample : ¬ newestFirst c6BadStore := by
  intro h
  have e : c6BadStore = [mkIncident someNewIncident 10,
      { mkIncident someNewIncident 5 with timestamp := 20 }] := rfl
  rw [e] at h
  have h2 := List.chain'_pair.mp h
  have h3 : (20 : Nat) ≤ 10 := h2
  omega

/-- C6 amended: timestamps are monotone non-decreasing with insertion order
(newest first in the list) after any sequence of inserts alone, provided the
clock is non-decreasing across the inserts and the seed is newest-first with
timestamps at or before the insert times; the refresh tick is excluded since
it can re-stamp an arbitrary-position record with the current time. -/
theorem c6_inserts_newestFirst (seed : List Incident)
    (inserts : List (NewIncident × Nat))
    (hseed : newestFirst seed)
    (hnows : (inserts.map Prod.snd).Pairwise (· ≤ ·))
    (hge : ∀ x ∈ seed, ∀ pt ∈ inserts, x.timestamp ≤ pt.2) :
    newestFirst (applyInserts seed inserts) := by
  induction inserts generalizing seed with
  | nil => exact hseed
  | cons x rest ih =>
      rw [applyInserts_cons]
      have hpw : (∀ b ∈ rest.map Prod.snd, x.2 ≤ b) ∧
          (rest.map Prod.snd).Pairwise (· ≤ ·) := by
        have h := hnows
        rw [List.map_cons, List.pairwise_cons] at h
        exact h
      apply ih
      · rw [show addIncident x.1 x.2 seed = mkIncident x.1 x.2 :: seed from rfl]
        unfold newestFirst
        rw [List.chain'_cons']
        refine ⟨?_, hseed⟩
        intro b hb
        exact hge b (List.mem_of_mem_head? hb) x (List.mem_cons_self x rest)
      · exact hpw.2
      · intro y hy pt hpt
        rcases List.mem_cons.mp hy with h1 | h1
        · rw [h1]
          exact hpw.1 pt.2 (List.mem_map_of_mem Prod.snd hpt)
        · exact hge y h1 pt (List.mem_cons_of_mem x hpt)

/-- C6 witness: the seed store followed by two inserts at later, increasing
times is newest-first. -/
theorem c6_inserts_newestFirst_witness :
    newestFirst (applyInserts (MOCK_INCIDENTS 10000000)
      [(someNewIncident, 20000000), (someNewIncident, 30000000)]) := by
  apply c6_inserts_newestFirst
  · exact List.Chain'.cons (by decide) (List.Chain'.cons (by decide)
      (List.Chain'.cons (by decide) (List.chain'_singleton _)))
  · simp [List.pairwise_cons]
  · decide

theorem snd_mem_of_mem_enumFrom {α : Type} :
    ∀ (l : List α) (n : Nat) (p : Nat × α), p ∈ l.enumFrom n → p.2 ∈ l := by
  intro l
  induction l with
  | nil =>
      intro n p h
      simp [List.enumFrom] at h
  | cons a t ih =>
      intro n p h
      rcases List.mem_cons.mp h with h1 | h1
      · rw [h1]
        exact List.mem_cons_self a t
      · exact List.mem_cons_of_mem a (ih (n + 1) p h1)

/-- C7: every record produced by the synthetic generator has its confidence
and its detection-box confidences in `[0, 1]` (the draw lies in `[0, 1)`);
`processYOLOResults` preserves detection confidences into the incidents it
builds; and a store built by inserts preserves the bounds of its seed and
payloads. -/
theorem c7_confidence_bounds :
    (∀ d : RandomDraws, DrawsOK d →
      payloadConfWithin01 (generateRandomDetection d)) ∧
    (∀ (r : AnalyzeResultsInput) (loc : GeoLocation) (now : Nat),
      (∀ det ∈ r.detections.getD [], 0 ≤ det.confidence ∧ det.confidence ≤ 1) →
      ∀ inc ∈ (processYOLOResults r loc now).incidents, confWithin01 inc) ∧
    (∀ (seed : List Incident) (inserts : List (NewIncident × Nat)),
      (∀ inc ∈ seed, confWithin01 inc) →
      (∀ pt ∈ inserts, payloadConfWithin01 pt.1) →
      ∀ inc ∈ applyInserts seed inserts, confWithin01 inc) := by
  have hb : ∀ q : ℚ, 0 ≤ q → q < 1 → 0 ≤ 0.75 + q * 0.2 ∧ 0.75 + q * 0.2 ≤ 1 := by
    intro q h0 h1
    constructor <;> nlinarith
  refine ⟨?_, ?_, ?_⟩
  · intro d hd
    obtain ⟨-, -, -, -, hConf, -, -, -, -, hBox⟩ := hd
    constructor
    · intro cv hcv
      rw [show (generateRandomDetection d).confidence =
        some (0.75 + d.rConf * 0.2) from rfl] at hcv
      rw [← Option.mem_some_iff.mp hcv]
      exact hb d.rConf hConf.1 hConf.2
    · intro bs hbs b hb2
      rw [show (generateRandomDetection d).detectionBoxes =
        some [{ x := d.rX * 200 + 50
                y := d.rY * 150 + 50
                width := d.rW * 100 + 100
                height := d.rH * 80 + 80
                cls := ((detectionTypes.getD (jsIndex d.rType 4) default).type).toStr
                confidence := 0.75 + d.rBoxConf * 0.2 }] from rfl] at hbs
      obtain rfl := Option.mem_some_iff.mp hbs
      obtain rfl := List.mem_singleton.mp hb2
      exact hb d.rBoxConf hBox.1 hBox.2
  · intro r loc now hdet inc hinc
    have hinc2 : inc ∈ ((r.detections.getD []).enumFrom 0).filterMap
        (fun p => (mapYOLOClassToIncidentType p.2.cls).map
          (yoloIncident loc now p.1 p.2)) := hinc
    obtain ⟨p, hp, hmap⟩ := List.mem_filterMap.mp hinc2
    obtain ⟨t, ht, rfl⟩ := Option.map_eq_some'.mp hmap
    have hbd := hdet p.2 (snd_mem_of_mem_enumFrom _ 0 p hp)
    constructor
    · intro cv hcv
      rw [show (yoloIncident loc now p.1 p.2 t).confidence =
        some p.2.confidence from rfl] at hcv
      rw [← Option.mem_some_iff.mp hcv]
      exact hbd
    · intro bs hbs b hb2
      rw [show (yoloIncident loc now p.1 p.2 t).detectionBoxes =
        some [{ x := p.2.bbox.x1
                y := p.2.bbox.y1
                width := p.2.bbox.x2 - p.2.bbox.x1
                height := p.2.bbox.y2 - p.2.bbox.y1
                cls := p.2.cls
                confidence := p.2.confidence }] from rfl] at hbs
      obtain rfl := Option.mem_some_iff.mp hbs
      obtain rfl := List.mem_singleton.mp hb2
      exact hbd
  · intro seed inserts
    induction inserts generalizing seed with
    | nil =>
        intro hseed _ inc hinc
        exact hseed inc hinc
    | cons x rest ih =>
        intro hseed hins inc hinc
        rw [applyInserts_cons] at hinc
        refine ih (addIncident x.1 x.2 seed) ?_ ?_ inc hinc
        · intro y hy
          rcases List.mem_cons.mp hy with h1 | h1
          · subst h1
            exact hins x (List.mem_cons_self x rest)
          · exact hseed y h1
        · intro pt hpt
          exact hins pt (List.mem_cons_of_mem x hpt)

/-- C7 witness: the generator at all-half draws, the example analysis, and a
one-insert store run. -/
theorem c7_confidence_bounds_witness :
    payloadConfWithin01 (generateRandomDetection halfDraws) ∧
    (∀ inc ∈ (processYOLOResults { detections := some [detCarAccident] }
        demoLoc 123).incidents, confWithin01 inc) ∧
    (∀ inc ∈ applyInserts [] [(someNewIncident, 5)], confWithin01 inc) := by
  refine ⟨c7_confidence_bounds.1 halfDraws
      ⟨⟨by decide, by decide⟩, ⟨by decide, by decide⟩, ⟨by decide, by decide⟩,
        ⟨by decide, by decide⟩, ⟨by decide, by decide⟩, ⟨by decide, by decide⟩,
        ⟨by decide, by decide⟩, ⟨by decide, by decide⟩, ⟨by decide, by decide⟩,
        ⟨by decide, by decide⟩⟩,
    c7_confidence_bounds.2.1 _ demoLoc 123 (by decide),
    c7_confidence_bounds.2.2 [] [(someNewIncident, 5)] ?_ ?_⟩
  · intro inc h
    exact absurd h (List.not_mem_nil inc)
  · intro pt hpt
    obtain rfl := List.mem_singleton.mp hpt
    constructor <;> intro a ha <;> simp [someNewIncident] at ha

theorem getD_mem_of_lt {α : Type} (l : List α) (i : Nat) (d : α)
    (h : i < l.length) : l.getD i d ∈ l := by
  rw [List.getD_eq_get?, List.get?_eq_get h]
  exact List.get_mem l i h

theorem jsIndex_lt (r : ℚ) (n : Nat) (hn : 0 < n) (_h0 : 0 ≤ r) (h1 : r < 1) :
    jsIndex r n < n := by
  have hlt : ⌊r * (n : ℚ)⌋ < (n : ℤ) := by
    apply Int.floor_lt.mpr
    have hnq : (0 : ℚ) < (n : ℚ) := by exact_mod_cast hn
    calc r * (n : ℚ) < 1 * (n : ℚ) := mul_lt_mul_of_pos_right h1 hnq
      _ = ((n : ℤ) : ℚ) := by push_cast; ring
  unfold jsIndex
  omega

/-- C8 counterexample: in `server/yolo-server.js`, a request carrying a video
file but a malformed location JSON is answered with the 500 error response,
not a completed analysis. -/
theorem c8_counterexample :
    yoloServerAnalyze true "video-1.mp4" .malformed [] 123 =
      .serverError "Failed to analyze video" ∧
    (yoloServerAnalyze true "video-1.mp4" .malformed [] 123).isOk = false :=
  ⟨rfl, rfl⟩

/-- C8 amended: in the unnamed server variant the malformed-location parse
failure is caught, the request succeeds with a completed analysis, and every
generated incident takes its base location from the fallback catalog; in
`server/yolo-server.js` the same request is answered with a 500 error. -/
theorem c8_amended_fallback (filename : String) (now : Nat) (g : GenDraws)
    (hl : ∀ i, 0 ≤ (g.perIncident i).rLoc ∧ (g.perIncident i).rLoc < 1) :
    (∃ body, part007Analyze true filename .malformed now g = .ok body ∧
      body.status = "success" ∧ body.analysis_complete = true ∧
      1 ≤ body.incidents.length ∧
      ∀ inc ∈ body.incidents, ∃ base ∈ hyderabadLocationsServer,
        inc.location.area = base.area) ∧
    ∀ (mockDetections : List YOLODetection),
      yoloServerAnalyze true filename .malformed mockDetections now =
        .serverError "Failed to analyze video" := by
  constructor
  · refine ⟨generateMockAnalysis filename none now g, rfl, rfl, rfl, ?_, ?_⟩
    · show 1 ≤ ((List.range (jsIndex g.rCount 3 + 1)).map _).length
      rw [List.length_map, List.length_range]
      omega
    · intro inc hinc
      have hinc2 : inc ∈ (List.range (jsIndex g.rCount 3 + 1)).map
          (fun i => mkServerIncident now i none (g.perIncident i)) := hinc
      obtain ⟨i, hi, rfl⟩ := List.mem_map.mp hinc2
      refine ⟨hyderabadLocationsServer.getD (jsIndex (g.perIncident i).rLoc 8) default,
        ?_, rfl⟩
      apply getD_mem_of_lt
      exact jsIndex_lt (g.perIncident i).rLoc 8 (by omega) (hl i).1 (hl i).2
  · intro mockDetections
    rfl

/-- C8 witness: the two handlers at a concrete malformed-location request. -/
theorem c8_amended_fallback_witness :
    (∃ body, part007Analyze true "video-1.mp4" .malformed 123 demoGenDraws = .ok body ∧
      body.status = "success" ∧ body.analysis_complete = true ∧
      1 ≤ body.incidents.length ∧
      ∀ inc ∈ body.incidents, ∃ base ∈ hyderabadLocationsServer,
        inc.location.area = base.area) ∧
    ∀ (mockDetections : List YOLODetection),
      yoloServerAnalyze true "video-1.mp4" .malformed mockDetections 123 =
        .serverError "Failed to analyze video" :=
  c8_amended_fallback "video-1.mp4" 123 demoGenDraws
    (fun _ => show (0 : ℚ) ≤ mkRat 1 2 ∧ mkRat 1 2 < 1 from ⟨by decide, by decide⟩)

end PathClear
